import Mathlib

/-!
Verification of the real-estate investment analyzer's scoring pipeline.

The pipeline (Market Analyzer → Property Evaluator → Financial Calculator →
Decision Engine) is embedded shallowly:

* Python floats are modelled as exact rationals (`ℚ`); the single square
  root (`variance ** 0.5` in the Decision Engine's confidence) is modelled
  in `ℝ` via `Real.sqrt`.
* `round(x, d)` is modelled as decimal rounding with ties to even,
  `int(x)` as truncation toward zero.
* Python ints are modelled as `ℤ`.
* A division whose divisor can be zero for some input raises
  `ZeroDivisionError` in Python; such code paths return `Except` here.
* The only time dependence, `datetime.now().year` in the Property
  Evaluator, is injected as an explicit `current_year` parameter.
-/

namespace REIA

section Rounding

variable {α : Type} [LinearOrderedField α] [FloorRing α]

/-- Round to the nearest integer with ties to even (Python `round` to zero
decimal places). -/
def roundHalfEven (x : α) : ℤ :=
  if x - ⌊x⌋ < 1/2 then ⌊x⌋
  else if 1/2 < x - ⌊x⌋ then ⌊x⌋ + 1
  else if ⌊x⌋ % 2 = 0 then ⌊x⌋ else ⌊x⌋ + 1

/-- Python `round(x, d)`: decimal rounding with ties to even. -/
def pyround (x : α) (d : ℕ) : α := (roundHalfEven (x * 10 ^ d) : α) / 10 ^ d

/-- Python `int(x)`: truncation toward zero. -/
def pytrunc (x : α) : ℤ := if x < 0 then ⌈x⌉ else ⌊x⌋

theorem floor_le_roundHalfEven (x : α) : ⌊x⌋ ≤ roundHalfEven x := by
  unfold roundHalfEven
  split_ifs <;> omega

theorem roundHalfEven_le_floor_succ (x : α) : roundHalfEven x ≤ ⌊x⌋ + 1 := by
  unfold roundHalfEven
  split_ifs <;> omega

theorem roundHalfEven_intCast (n : ℤ) : roundHalfEven (n : α) = n := by
  unfold roundHalfEven
  simp only [Int.floor_intCast, sub_self]
  norm_num

theorem roundHalfEven_cast_le (x : α) : (roundHalfEven x : α) ≤ x + 1/2 := by
  have hfl := Int.floor_le x
  have hlt := Int.lt_floor_add_one x
  unfold roundHalfEven
  split_ifs <;> push_cast <;> linarith

theorem le_roundHalfEven_cast (x : α) : x - 1/2 ≤ (roundHalfEven x : α) := by
  have hfl := Int.floor_le x
  have hlt := Int.lt_floor_add_one x
  unfold roundHalfEven
  split_ifs <;> push_cast <;> linarith

theorem roundHalfEven_mono {x y : α} (h : x ≤ y) :
    roundHalfEven x ≤ roundHalfEven y := by
  rcases lt_or_le ⌊x⌋ ⌊y⌋ with hf | hf
  · have h1 := roundHalfEven_le_floor_succ x
    have h2 := floor_le_roundHalfEven y
    omega
  · have hfe : ⌊x⌋ = ⌊y⌋ := le_antisymm (Int.floor_le_floor h) hf
    unfold roundHalfEven
    rw [hfe]
    split_ifs <;> first | omega | linarith

theorem pyround_mono {x y : α} (d : ℕ) (h : x ≤ y) : pyround x d ≤ pyround y d := by
  unfold pyround
  have h10 : (0:α) < 10 ^ d := by positivity
  have hm : x * 10 ^ d ≤ y * 10 ^ d := mul_le_mul_of_nonneg_right h h10.le
  exact div_le_div_of_nonneg_right (Int.cast_le.mpr (roundHalfEven_mono hm)) h10.le

/-- Function `pyround` fixes any value that is exactly representable with `d`
decimal digits. -/
theorem pyround_eq_self {x : α} {d : ℕ} (n : ℤ) (hn : x * 10 ^ d = (n : α)) :
    pyround x d = x := by
  have h10 : (10:α) ^ d ≠ 0 := by positivity
  unfold pyround
  rw [hn, roundHalfEven_intCast, ← hn, mul_div_cancel_right₀ _ h10]

theorem pyround_le_of_le {x c : α} {d : ℕ} (n : ℤ) (hn : c * 10 ^ d = (n : α))
    (h : x ≤ c) : pyround x d ≤ c :=
  le_of_le_of_eq (pyround_mono d h) (pyround_eq_self n hn)

theorem le_pyround_of_le {x c : α} {d : ℕ} (n : ℤ) (hn : c * 10 ^ d = (n : α))
    (h : c ≤ x) : c ≤ pyround x d :=
  le_of_eq_of_le (pyround_eq_self n hn).symm (pyround_mono d h)

theorem pyround_le_add (x : α) (d : ℕ) : pyround x d ≤ x + (1/2) / 10 ^ d := by
  have h10 : (0:α) < 10 ^ d := by positivity
  have h := roundHalfEven_cast_le (x * 10 ^ d)
  unfold pyround
  rw [div_le_iff₀ h10]
  calc (roundHalfEven (x * 10 ^ d) : α) ≤ x * 10 ^ d + 1/2 := h
    _ = (x + (1/2) / 10 ^ d) * 10 ^ d := by field_simp; ring

theorem pytrunc_mono {x y : α} (h : x ≤ y) : pytrunc x ≤ pytrunc y := by
  unfold pytrunc
  split_ifs with hx hy hy
  · exact Int.ceil_le_ceil h
  · calc ⌈x⌉ ≤ 0 := Int.ceil_le.mpr (by exact_mod_cast hx.le)
      _ ≤ ⌊y⌋ := Int.floor_nonneg.mpr (not_lt.mp hy)
  · exact absurd hy (not_lt.mpr ((not_lt.mp hx).trans h))
  · exact Int.floor_le_floor h

theorem pytrunc_nonpos {x : α} (h : x ≤ 0) : pytrunc x ≤ 0 := by
  unfold pytrunc
  split_ifs with hx
  · exact Int.ceil_le.mpr (by exact_mod_cast h)
  · have hf : ⌊x⌋ ≤ ⌊(0:α)⌋ := Int.floor_le_floor h
    simpa using hf

theorem pytrunc_eq_floor {x : α} (h : 0 ≤ x) : pytrunc x = ⌊x⌋ :=
  if_neg (not_lt.mpr h)

theorem le_pytrunc {x : α} (n : ℤ) (h : (n : α) ≤ x) (h0 : 0 ≤ x) :
    n ≤ pytrunc x := by
  rw [pytrunc_eq_floor h0]
  exact Int.le_floor.mpr h

end Rounding

/-! ## Data model (`src/models/property.py`) -/

/-- Source class `models.property.Property`. Python ints are `ℤ`, floats `ℚ`. -/
structure Property where
  property_id : String
  address : String
  city : String
  state : String
  price : ℤ
  bedrooms : ℤ
  bathrooms : ℚ
  sqft : ℤ
  year_built : ℤ
  property_type : String
  estimated_rent : ℤ
  hoa_fees : ℤ := 0
  property_tax_annual : ℤ := 0
  insurance_annual : ℤ := 0

/-- One entry of the per-city `market_data` table in
`src/data/mock_properties.py`. -/
structure MarketProfile where
  appreciation_rate : ℚ
  market_heat : String
  competition_level : String
  neighborhood_rating : ℚ
  school_rating : ℚ
  crime_index : ℚ
  avg_price_per_sqft : ℚ

/-- Source class `models.property.MarketAnalysis`. -/
structure MarketAnalysis where
  location_score : ℚ
  appreciation_rate : ℚ
  market_heat : String
  competition_level : String
  neighborhood_rating : ℚ
  school_rating : ℚ
  crime_index : ℚ

/-- Source class `models.property.PropertyEvaluation`. -/
structure PropertyEvaluation where
  condition_score : ℚ
  price_per_sqft : ℚ
  market_avg_price_per_sqft : ℚ
  value_rating : String
  renovation_potential : String
  issues_flagged : List String

/-- Source class `models.property.FinancialMetrics`. The fields stored with `int(...)`
in the source are `ℤ`. -/
structure FinancialMetrics where
  cap_rate : ℚ
  cash_on_cash_return : ℚ
  monthly_cash_flow : ℤ
  annual_cash_flow : ℤ
  roi_5_year : ℚ
  break_even_months : ℤ
  total_investment : ℤ
  net_operating_income : ℤ

/-- Source class `models.property.InvestmentRecommendation`; its `confidence` involves a
square root and lives in `ℝ`. -/
structure InvestmentRecommendation where
  property_id : String
  investment_grade : String
  overall_score : ℚ
  confidence : ℝ
  recommendation : String
  rationale : String
  risk_level : String
  key_strengths : List String
  key_concerns : List String

/-- A Python `ZeroDivisionError`; the source has no other runtime error and
no input validation. -/
inductive CalcError where
  | zeroDivision
deriving DecidableEq

/-! ## Market data (`src/data/mock_properties.py`, `get_market_data`) -/

def austinProfile : MarketProfile :=
  { appreciation_rate := 8.5, market_heat := "Hot", competition_level := "High",
    neighborhood_rating := 8.5, school_rating := 8.0, crime_index := 35,
    avg_price_per_sqft := 245 }

def sanDiegoProfile : MarketProfile :=
  { appreciation_rate := 6.2, market_heat := "Warm", competition_level := "High",
    neighborhood_rating := 9.0, school_rating := 8.5, crime_index := 28,
    avg_price_per_sqft := 625 }

def phoenixProfile : MarketProfile :=
  { appreciation_rate := 9.1, market_heat := "Hot", competition_level := "Medium",
    neighborhood_rating := 7.5, school_rating := 7.0, crime_index := 42,
    avg_price_per_sqft := 165 }

def nashvilleProfile : MarketProfile :=
  { appreciation_rate := 7.8, market_heat := "Hot", competition_level := "High",
    neighborhood_rating := 8.8, school_rating := 8.2, crime_index := 32,
    avg_price_per_sqft := 335 }

def charlotteProfile : MarketProfile :=
  { appreciation_rate := 6.5, market_heat := "Warm", competition_level := "Medium",
    neighborhood_rating := 8.0, school_rating := 7.8, crime_index := 38,
    avg_price_per_sqft := 195 }

/-- Lookup `get_market_data(city)`: dictionary lookup with
`market_data.get(city, market_data["Austin"])` — unknown cities fall back
to Austin's profile. -/
def get_market_data (city : String) : MarketProfile :=
  if city = "Austin" then austinProfile
  else if city = "San Diego" then sanDiegoProfile
  else if city = "Phoenix" then phoenixProfile
  else if city = "Nashville" then nashvilleProfile
  else if city = "Charlotte" then charlotteProfile
  else austinProfile

/-! ## Market Analyzer (`src/agents/market_analyzer.py`) -/

/-- The weighted-average location score before rounding
(`MarketAnalyzer.analyze_market`, the `location_score` assignment). -/
def location_score_raw (market_info : MarketProfile) : ℚ :=
  (market_info.neighborhood_rating * 0.3 +
   market_info.school_rating * 0.3 +
   (100 - market_info.crime_index) / 10 * 0.4) * 10

/-- Source method `MarketAnalyzer.analyze_market` — total: it has no error path. -/
def analyze_market (property : Property) : MarketAnalysis :=
  let market_info := get_market_data property.city
  { location_score := pyround (location_score_raw market_info) 1
    appreciation_rate := market_info.appreciation_rate
    market_heat := market_info.market_heat
    competition_level := market_info.competition_level
    neighborhood_rating := market_info.neighborhood_rating
    school_rating := market_info.school_rating
    crime_index := market_info.crime_index }

/-! ## Property Evaluator (`src/agents/property_evaluator.py`)

Each local variable of `PropertyEvaluator.evaluate_property` becomes a
definition; `evaluate_property` itself guards the one division that can
raise (`property.price / property.sqft` with `sqft == 0`). -/

def price_per_sqft_raw (property : Property) : ℚ :=
  (property.price : ℚ) / (property.sqft : ℚ)

/-- Source line `price_ratio = price_per_sqft / market_avg_price_per_sqft` (every
profile's `avg_price_per_sqft` is nonzero, so this division never raises). -/
def price_ratio (property : Property) : ℚ :=
  price_per_sqft_raw property / (get_market_data property.city).avg_price_per_sqft

def value_rating (property : Property) : String :=
  if price_ratio property < 0.90 then "Undervalued"
  else if price_ratio property > 1.10 then "Overvalued"
  else "Fair"

/-- Source line `property_age = current_year - property.year_built`. -/
def property_age (current_year : ℤ) (property : Property) : ℤ :=
  current_year - property.year_built

/-- Source line `condition_score = max(base_condition - age_penalty, 50)` with
`base_condition = 100` and `age_penalty = min(property_age * 1.5, 30)`. -/
def condition_score_raw (current_year : ℤ) (property : Property) : ℚ :=
  max (100 - min ((property_age current_year property : ℚ) * 1.5) 30) 50

def renovation_potential (current_year : ℤ) (property : Property) : String :=
  if property_age current_year property > 20 then "High"
  else if property_age current_year property > 10 then "Medium"
  else "Low"

/-- The `issues_flagged` accumulator, before the empty-list placeholder
substitution. -/
def issues_flagged_raw (current_year : ℤ) (property : Property) : List String :=
  (if property_age current_year property > 25 then
    ["Roof may need replacement soon", "HVAC system likely aging"] else []) ++
  (if property_age current_year property > 40 then
    ["Foundation inspection recommended", "Electrical system may need upgrade"] else []) ++
  (if property.property_type = "Condo" ∧ property.hoa_fees > 400 then
    ["High HOA fees impact cash flow"] else [])

/-- The `PropertyEvaluation` record built by `evaluate_property` (reachable
exactly when `sqft ≠ 0`). -/
def evalOf (current_year : ℤ) (property : Property) : PropertyEvaluation :=
  { condition_score := pyround (condition_score_raw current_year property) 1
    price_per_sqft := pyround (price_per_sqft_raw property) 2
    market_avg_price_per_sqft := (get_market_data property.city).avg_price_per_sqft
    value_rating := value_rating property
    renovation_potential := renovation_potential current_year property
    issues_flagged :=
      if issues_flagged_raw current_year property = [] then
        ["No major concerns identified"]
      else issues_flagged_raw current_year property }

/-- Source method `PropertyEvaluator.evaluate_property`: raises `ZeroDivisionError` when
`property.sqft == 0` (the unguarded `property.price / property.sqft`),
otherwise returns the evaluation record. -/
def evaluate_property (current_year : ℤ) (property : Property) :
    Except CalcError PropertyEvaluation :=
  if property.sqft = 0 then .error .zeroDivision
  else .ok (evalOf current_year property)

/-! ## Financial Calculator (`src/agents/financial_calculator.py`)

The fixed assumptions set in `FinancialCalculator.__init__` become
constants; each local float of `calculate_metrics` becomes a definition. -/

def down_payment_pct : ℚ := 0.20
def interest_rate : ℚ := 0.07
def loan_term_years : ℕ := 30
def vacancy_rate : ℚ := 0.05
def maintenance_rate : ℚ := 0.10
def property_mgmt_rate : ℚ := 0.08

def down_payment (property : Property) : ℚ := (property.price : ℚ) * down_payment_pct

def loan_amount (property : Property) : ℚ := (property.price : ℚ) - down_payment property

def monthly_rate : ℚ := interest_rate / 12

def num_payments : ℕ := loan_term_years * 12

/-- Fixed-rate amortization payment (also recomputed at the top of
`_calculate_equity_buildup`). -/
def monthly_payment_of (loan : ℚ) : ℚ :=
  (loan * monthly_rate * (1 + monthly_rate) ^ num_payments) /
    ((1 + monthly_rate) ^ num_payments - 1)

def monthly_mortgage (property : Property) : ℚ := monthly_payment_of (loan_amount property)

def monthly_property_tax (property : Property) : ℚ := (property.property_tax_annual : ℚ) / 12

def monthly_insurance (property : Property) : ℚ := (property.insurance_annual : ℚ) / 12

def monthly_hoa (property : Property) : ℚ := (property.hoa_fees : ℚ)

def effective_monthly_rent (property : Property) : ℚ :=
  (property.estimated_rent : ℚ) * (1 - vacancy_rate)

def monthly_maintenance (property : Property) : ℚ :=
  (property.estimated_rent : ℚ) * maintenance_rate

def monthly_mgmt (property : Property) : ℚ :=
  (property.estimated_rent : ℚ) * property_mgmt_rate

def total_monthly_expenses (property : Property) : ℚ :=
  monthly_mortgage property + monthly_property_tax property +
    monthly_insurance property + monthly_hoa property +
    monthly_maintenance property + monthly_mgmt property

/-- Value of `monthly_cash_flow` before the final `int(...)` truncation. -/
def monthly_cash_flow_raw (property : Property) : ℚ :=
  effective_monthly_rent property - total_monthly_expenses property

def annual_cash_flow_raw (property : Property) : ℚ := monthly_cash_flow_raw property * 12

def annual_noi (property : Property) : ℚ :=
  effective_monthly_rent property * 12 -
    (monthly_property_tax property + monthly_insurance property + monthly_hoa property +
      monthly_maintenance property + monthly_mgmt property) * 12

/-- Source line `cap_rate = (annual_noi / property.price) * 100` — divides by the price. -/
def cap_rate_raw (property : Property) : ℚ :=
  annual_noi property / (property.price : ℚ) * 100

def closing_costs (property : Property) : ℚ := (property.price : ℚ) * 0.03

def total_investment_raw (property : Property) : ℚ :=
  down_payment property + closing_costs property

/-- Source line `cash_on_cash = (annual_cash_flow / total_investment) * 100` — divides
by `total_investment = 0.23 * price`, zero exactly when the price is. -/
def cash_on_cash_raw (property : Property) : ℚ :=
  annual_cash_flow_raw property / total_investment_raw property * 100

def future_value (property : Property) (appreciation_rate : ℚ) : ℚ :=
  (property.price : ℚ) * (1 + appreciation_rate / 100) ^ 5

/-- The amortization loop of `_calculate_equity_buildup`: state is
`(balance, total_principal_paid)`. -/
def equityGo (monthly_payment rate : ℚ) : ℕ → ℚ × ℚ → ℚ × ℚ
  | 0, s => s
  | n + 1, (balance, total) =>
      let interest_payment := balance * rate
      let principal_payment := monthly_payment - interest_payment
      equityGo monthly_payment rate n (balance - principal_payment, total + principal_payment)

/-- Source method `FinancialCalculator._calculate_equity_buildup loan monthly_rate
num_payments months_paid`. -/
def calculate_equity_buildup (loan : ℚ) (rate : ℚ) (total_payments : ℕ)
    (months_paid : ℕ) : ℚ :=
  let payment := (loan * rate * (1 + rate) ^ total_payments) / ((1 + rate) ^ total_payments - 1)
  (equityGo payment rate months_paid (loan, 0)).2

def equity_buildup (property : Property) : ℚ :=
  calculate_equity_buildup (loan_amount property) monthly_rate num_payments 60

def total_gain (property : Property) (appreciation_rate : ℚ) : ℚ :=
  (future_value property appreciation_rate - (property.price : ℚ)) +
    equity_buildup property + annual_cash_flow_raw property * 5

def roi_5_year_raw (property : Property) (appreciation_rate : ℚ) : ℚ :=
  total_gain property appreciation_rate / total_investment_raw property * 100

/-- The break-even branch: `int(total_investment / monthly_cash_flow)` when
the (exact, pre-truncation) cash flow is positive, else the 999 sentinel. -/
def break_even_months_val (property : Property) : ℤ :=
  if 0 < monthly_cash_flow_raw property then
    pytrunc (total_investment_raw property / monthly_cash_flow_raw property)
  else 999

/-- The `FinancialMetrics` record of `calculate_metrics` (reachable exactly
when `price ≠ 0`). -/
def metricsOf (property : Property) (appreciation_rate : ℚ) : FinancialMetrics :=
  { cap_rate := pyround (cap_rate_raw property) 2
    cash_on_cash_return := pyround (cash_on_cash_raw property) 2
    monthly_cash_flow := pytrunc (monthly_cash_flow_raw property)
    annual_cash_flow := pytrunc (annual_cash_flow_raw property)
    roi_5_year := pyround (roi_5_year_raw property appreciation_rate) 2
    break_even_months := break_even_months_val property
    total_investment := pytrunc (total_investment_raw property)
    net_operating_income := pytrunc (annual_noi property) }

/-- Source method `FinancialCalculator.calculate_metrics`: raises `ZeroDivisionError`
when `property.price == 0` (the `annual_noi / property.price` and
`annual_cash_flow / total_investment` divisions), otherwise returns the
metrics record. -/
def calculate_metrics (property : Property) (appreciation_rate : ℚ) :
    Except CalcError FinancialMetrics :=
  if property.price = 0 then .error .zeroDivision
  else .ok (metricsOf property appreciation_rate)

/-! ## Decision Engine (`src/agents/decision_engine.py`)

The `self.weights` dictionary becomes three constants; every helper method
becomes a definition.  Python f-string interpolation is modelled with
`toString` and string concatenation. -/

def weight_financial : ℚ := 0.40
def weight_market : ℚ := 0.30
def weight_property : ℚ := 0.30

/-- Cap-rate component of `_calculate_financial_score` (0-40 points). -/
def cap_rate_score (metrics : FinancialMetrics) : ℚ := min (metrics.cap_rate * 4) 40

/-- Cash-flow component of `_calculate_financial_score` (0-30 points). -/
def cash_flow_score (metrics : FinancialMetrics) : ℚ :=
  if metrics.monthly_cash_flow ≥ 500 then 30
  else if metrics.monthly_cash_flow ≥ 300 then 25
  else if metrics.monthly_cash_flow ≥ 100 then 20
  else if metrics.monthly_cash_flow > 0 then 15
  else 0

/-- ROI component of `_calculate_financial_score` (0-30 points). -/
def roi_score (metrics : FinancialMetrics) : ℚ := min (metrics.roi_5_year / 3) 30

/-- Source method `DecisionEngine._calculate_financial_score`. -/
def calculate_financial_score (metrics : FinancialMetrics) : ℚ :=
  min (cap_rate_score metrics + cash_flow_score metrics + roi_score metrics) 100

/-- The engine's weighted overall score, before the final one-decimal
rounding (`make_decision`, the `overall_score` assignment). -/
def overall_score_raw (financial_score market_score property_score : ℚ) : ℚ :=
  financial_score * weight_financial + market_score * weight_market +
    property_score * weight_property

/-- Source method `DecisionEngine._assign_grade`. -/
def assign_grade (score : ℚ) : String :=
  if score ≥ 90 then "A+"
  else if score ≥ 85 then "A"
  else if score ≥ 80 then "A-"
  else if score ≥ 75 then "B+"
  else if score ≥ 70 then "B"
  else if score ≥ 65 then "B-"
  else if score ≥ 60 then "C+"
  else if score ≥ 55 then "C"
  else "D"

/-- Source method `DecisionEngine._determine_recommendation`. -/
def determine_recommendation (score : ℚ) (metrics : FinancialMetrics) : String :=
  if metrics.monthly_cash_flow ≤ 0 then "Pass"
  else if score ≥ 80 then "Strong Buy"
  else if score ≥ 70 then "Buy"
  else if score ≥ 60 then "Consider"
  else "Pass"

/-- Source line `avg_score = sum(scores) / len(scores)` in `_calculate_confidence`. -/
def avg_score (financial_score market_score property_score : ℚ) : ℚ :=
  (financial_score + market_score + property_score) / 3

/-- Source line `variance = sum((s - avg_score) ** 2 for s in scores) / len(scores)`. -/
def score_variance (financial_score market_score property_score : ℚ) : ℚ :=
  ((financial_score - avg_score financial_score market_score property_score) ^ 2 +
   (market_score - avg_score financial_score market_score property_score) ^ 2 +
   (property_score - avg_score financial_score market_score property_score) ^ 2) / 3

/-- Source method `DecisionEngine._calculate_confidence`: `std_dev = variance ** 0.5`
forces `ℝ`; `confidence = max(100 - (std_dev * 3), 50)`. -/
noncomputable def calculate_confidence
    (financial_score market_score property_score : ℚ) : ℝ :=
  max (100 - Real.sqrt ((score_variance financial_score market_score property_score : ℚ) : ℝ) * 3) 50

/-- The seven boolean risk checks of `_assess_risk`, counted. -/
def risk_factors (market : MarketAnalysis) (prop_eval : PropertyEvaluation)
    (metrics : FinancialMetrics) : ℕ :=
  (if market.market_heat = "Cool" then 1 else 0) +
  (if market.crime_index > 50 then 1 else 0) +
  (if market.appreciation_rate < 4 then 1 else 0) +
  (if prop_eval.condition_score < 60 then 1 else 0) +
  (if prop_eval.issues_flagged.length > 2 then 1 else 0) +
  (if metrics.monthly_cash_flow < 200 then 1 else 0) +
  (if metrics.cap_rate < 5 then 1 else 0)

/-- Source method `DecisionEngine._assess_risk`. -/
def assess_risk (market : MarketAnalysis) (prop_eval : PropertyEvaluation)
    (metrics : FinancialMetrics) : String :=
  if risk_factors market prop_eval metrics ≥ 4 then "High"
  else if risk_factors market prop_eval metrics ≥ 2 then "Medium"
  else "Low"

/-- Source method `DecisionEngine._identify_strengths`. -/
def identify_strengths (market : MarketAnalysis) (prop_eval : PropertyEvaluation)
    (metrics : FinancialMetrics) : List String :=
  let strengths :=
    (if metrics.cap_rate > 8 then
      ["Excellent cap rate (" ++ toString metrics.cap_rate ++ "%)"] else []) ++
    (if metrics.monthly_cash_flow > 500 then
      ["Strong cash flow ($" ++ toString metrics.monthly_cash_flow ++ "/month)"] else []) ++
    (if market.appreciation_rate > 7 then
      ["High appreciation market (" ++ toString market.appreciation_rate ++ "%/year)"] else []) ++
    (if market.location_score > 80 then
      ["Premium location (score: " ++ toString market.location_score ++ ")"] else []) ++
    (if prop_eval.value_rating = "Undervalued" then
      ["Property priced below market"] else []) ++
    (if market.school_rating ≥ 8 then
      ["Excellent schools (rating: " ++ toString market.school_rating ++ ")"] else [])
  if strengths = [] then ["Meets basic investment criteria"] else strengths

/-- Source method `DecisionEngine._identify_concerns`.  Python's
`prop_eval.issues_flagged[0]` is modelled with `headD ""` (every reachable
evaluation has a non-empty list); `x not in y` is substring containment. -/
def identify_concerns (market : MarketAnalysis) (prop_eval : PropertyEvaluation)
    (metrics : FinancialMetrics) : List String :=
  let concerns :=
    (if metrics.monthly_cash_flow < 100 then
      ["Minimal cash flow cushion"] else []) ++
    (if metrics.cap_rate < 5 then
      ["Low cap rate (" ++ toString metrics.cap_rate ++ "%)"] else []) ++
    (if market.competition_level = "High" then
      ["High buyer competition in market"] else []) ++
    (if prop_eval.condition_score < 70 then
      ["Property may need significant repairs"] else []) ++
    (if prop_eval.value_rating = "Overvalued" then
      ["Property priced above market average"] else []) ++
    (if market.crime_index > 45 then
      ["Above-average crime in area"] else []) ++
    (if prop_eval.issues_flagged.length > 1 ∧
        ¬ ((prop_eval.issues_flagged.headD "").containsSubstr "No major concerns") then
      [toString prop_eval.issues_flagged.length ++ " potential property issues"] else [])
  if concerns = [] then ["No significant concerns identified"] else concerns

/-- Source method `DecisionEngine._generate_rationale`. -/
def generate_rationale (score : ℚ) (grade : String) (metrics : FinancialMetrics)
    (market : MarketAnalysis) : String :=
  let c := toString metrics.cap_rate
  if score ≥ 80 then
    "This property scores " ++ grade ++ " with strong fundamentals across all metrics. " ++
      "The " ++ c ++ "% cap rate combined with " ++ market.market_heat.toLower ++
      " market conditions creates an excellent investment opportunity."
  else if score ≥ 70 then
    "This property earns a " ++ grade ++ " rating with solid investment potential. " ++
      "Financial metrics are sound with " ++ c ++ "% cap rate, though " ++
      "some areas could be stronger."
  else if score ≥ 60 then
    "This property receives a " ++ grade ++ " grade. While it meets basic criteria, " ++
      "the investment case is moderate with a " ++ c ++ "% cap rate."
  else
    "This property scores " ++ grade ++ " and presents challenges. " ++
      "The " ++ c ++ "% cap rate and other factors suggest caution."

/-- Source method `DecisionEngine.make_decision` — total over its four inputs. -/
noncomputable def make_decision (property : Property) (market_analysis : MarketAnalysis)
    (property_eval : PropertyEvaluation) (financial_metrics : FinancialMetrics) :
    InvestmentRecommendation :=
  let financial_score := calculate_financial_score financial_metrics
  let market_score := market_analysis.location_score
  let property_score := property_eval.condition_score
  let overall_score := overall_score_raw financial_score market_score property_score
  { property_id := property.property_id
    investment_grade := assign_grade overall_score
    overall_score := pyround overall_score 1
    confidence := pyround (calculate_confidence financial_score market_score property_score) 1
    recommendation := determine_recommendation overall_score financial_metrics
    rationale := generate_rationale overall_score (assign_grade overall_score)
      financial_metrics market_analysis
    risk_level := assess_risk market_analysis property_eval financial_metrics
    key_strengths := identify_strengths market_analysis property_eval financial_metrics
    key_concerns := identify_concerns market_analysis property_eval financial_metrics }

/-! ## The full four-stage pipeline (dependency order as in
`src/main.py::analyze_property`). -/

/-- The recommendation produced on the pipeline's happy path. -/
noncomputable def pipelineOutput (current_year : ℤ) (property : Property) :
    InvestmentRecommendation :=
  let market_analysis := analyze_market property
  make_decision property market_analysis (evalOf current_year property)
    (metricsOf property market_analysis.appreciation_rate)

/-- The four stages run in dependency order: Market Analyzer, Property
Evaluator, Financial Calculator (fed the analyzer's appreciation rate),
Decision Engine. -/
noncomputable def run_pipeline (current_year : ℤ) (property : Property) :
    Except CalcError InvestmentRecommendation := do
  let market_analysis := analyze_market property
  let property_eval ← evaluate_property current_year property
  let financial_metrics ← calculate_metrics property market_analysis.appreciation_rate
  .ok (make_decision property market_analysis property_eval financial_metrics)

/-! ## Shared concrete inputs and helper lemmas -/

/-- PROP-001 from `get_sample_properties` in `src/data/mock_properties.py`. -/
def sampleProperty : Property :=
  { property_id := "PROP-001", address := "1234 Maple Street", city := "Austin",
    state := "TX", price := 425000, bedrooms := 3, bathrooms := 2.0, sqft := 1850,
    year_built := 2015, property_type := "Single Family", estimated_rent := 2400,
    hoa_fees := 0, property_tax_annual := 8500, insurance_annual := 1800 }

theorem evalOf_condition_score (current_year : ℤ) (property : Property) :
    (evalOf current_year property).condition_score =
      pyround (condition_score_raw current_year property) 1 := rfl

theorem le_condition_score (current_year : ℤ) (property : Property) :
    70 ≤ (evalOf current_year property).condition_score := by
  rw [evalOf_condition_score]
  refine le_pyround_of_le 700 (by norm_num) ?_
  unfold condition_score_raw
  have h := min_le_right ((property_age current_year property : ℚ) * 1.5) 30
  have h2 : (70:ℚ) ≤ 100 - min ((property_age current_year property : ℚ) * 1.5) 30 := by
    linarith
  exact le_max_of_le_left h2

theorem condition_score_le (current_year : ℤ) (property : Property)
    (h : 0 ≤ property_age current_year property) :
    (evalOf current_year property).condition_score ≤ 100 := by
  rw [evalOf_condition_score]
  refine pyround_le_of_le 1000 (by norm_num) ?_
  unfold condition_score_raw
  have hq : (0:ℚ) ≤ (property_age current_year property : ℚ) * 1.5 := by
    have : (0:ℚ) ≤ (property_age current_year property : ℚ) := by exact_mod_cast h
    linarith
  have hmin : (0:ℚ) ≤ min ((property_age current_year property : ℚ) * 1.5) 30 :=
    le_min hq (by norm_num)
  exact max_le (by linarith) (by norm_num)

/-! ## C1 — the recommendation cascade -/

/-- The recommendation cascade as the spec words it (§4.4): a non-positive
monthly cash flow forces Pass regardless of score; otherwise Strong Buy at
score ≥ 80, Buy at ≥ 70, Consider at ≥ 60, else Pass. -/
def spec_recommendation_cascade (overall_score : ℚ) (metrics : FinancialMetrics) : String :=
  if metrics.monthly_cash_flow ≤ 0 then "Pass"
  else if 80 ≤ overall_score then "Strong Buy"
  else if 70 ≤ overall_score then "Buy"
  else if 60 ≤ overall_score then "Consider"
  else "Pass"

/-- C1: for every Property and every analysis triple, the Decision Engine's
recommendation equals the spec cascade evaluated at the engine's weighted
overall score and the metrics' monthly cash flow. -/
theorem recommendation_follows_spec_cascade
    (property : Property) (market_analysis : MarketAnalysis)
    (property_eval : PropertyEvaluation) (metrics : FinancialMetrics) :
    (make_decision property market_analysis property_eval metrics).recommendation =
      spec_recommendation_cascade
        (overall_score_raw (calculate_financial_score metrics)
          market_analysis.location_score property_eval.condition_score)
        metrics := rfl

/-! ## C6 — determinism of the pipeline -/

/-- C6: with the reference year injected (the only time dependence,
`datetime.now().year`), the four-stage pipeline is a pure function of the
Property — two runs on identical inputs return identical records in every
field.  The market profile is itself a function of `property.city`, so
equal properties see identical profiles. -/
theorem pipeline_deterministic (year1 year2 : ℤ) (p1 p2 : Property)
    (hyear : year1 = year2) (hprop : p1 = p2) :
    run_pipeline year1 p1 = run_pipeline year2 p2 := by
  subst hyear hprop
  rfl

theorem pipeline_deterministic_witness :
    run_pipeline 2024 sampleProperty = run_pipeline 2024 sampleProperty :=
  pipeline_deterministic 2024 2024 sampleProperty sampleProperty rfl rfl

/-! ## C7 — accumulation of issue flags -/

/-- C7: issue flags accumulate by threshold — age > 25 adds the roof and
HVAC issues, age > 40 additionally adds the foundation and electrical
issues, a Condo with HOA fees > 400 adds the HOA cash-flow issue; when no
threshold fires the list is exactly the "no issues" placeholder, and the
list is never empty. -/
theorem issue_flags_accumulate (current_year : ℤ) (property : Property) :
    (25 < property_age current_year property →
      "Roof may need replacement soon" ∈ (evalOf current_year property).issues_flagged ∧
      "HVAC system likely aging" ∈ (evalOf current_year property).issues_flagged) ∧
    (40 < property_age current_year property →
      "Foundation inspection recommended" ∈ (evalOf current_year property).issues_flagged ∧
      "Electrical system may need upgrade" ∈ (evalOf current_year property).issues_flagged) ∧
    (property.property_type = "Condo" → 400 < property.hoa_fees →
      "High HOA fees impact cash flow" ∈ (evalOf current_year property).issues_flagged) ∧
    (property_age current_year property ≤ 25 →
      ¬ (property.property_type = "Condo" ∧ property.hoa_fees > 400) →
      (evalOf current_year property).issues_flagged = ["No major concerns identified"]) ∧
    (evalOf current_year property).issues_flagged ≠ [] := by
  have hpl : (evalOf current_year property).issues_flagged =
      (if issues_flagged_raw current_year property = [] then ["No major concerns identified"]
       else issues_flagged_raw current_year property) := rfl
  refine ⟨?_, ?_, ?_, ?_, ?_⟩
  · intro h25
    have hne : issues_flagged_raw current_year property ≠ [] := by
      unfold issues_flagged_raw
      rw [if_pos h25]
      simp
    rw [hpl, if_neg hne]
    unfold issues_flagged_raw
    rw [if_pos h25]
    exact ⟨by simp, by simp⟩
  · intro h40
    have h25 : 25 < property_age current_year property := by omega
    have hne : issues_flagged_raw current_year property ≠ [] := by
      unfold issues_flagged_raw
      rw [if_pos h25]
      simp
    rw [hpl, if_neg hne]
    unfold issues_flagged_raw
    rw [if_pos h25, if_pos h40]
    exact ⟨by simp, by simp⟩
  · intro htype hhoa
    have hcond : property.property_type = "Condo" ∧ property.hoa_fees > 400 := ⟨htype, hhoa⟩
    have hne : issues_flagged_raw current_year property ≠ [] := by
      unfold issues_flagged_raw
      rw [if_pos hcond]
      simp
    rw [hpl, if_neg hne]
    unfold issues_flagged_raw
    rw [if_pos hcond]
    simp
  · intro hle hnc
    have e1 : ¬ (25 < property_age current_year property) := by omega
    have e2 : ¬ (40 < property_age current_year property) := by omega
    have hempty : issues_flagged_raw current_year property = [] := by
      unfold issues_flagged_raw
      rw [if_neg e1, if_neg e2, if_neg hnc]
      rfl
    rw [hpl, if_pos hempty]
  · rw [hpl]
    split_ifs with h
    · simp
    · exact h

theorem issue_flags_accumulate_witness :
    ("Roof may need replacement soon" ∈ (evalOf 2025 { sampleProperty with year_built := 1980 }).issues_flagged ∧
      "HVAC system likely aging" ∈ (evalOf 2025 { sampleProperty with year_built := 1980 }).issues_flagged) ∧
    ("Foundation inspection recommended" ∈ (evalOf 2025 { sampleProperty with year_built := 1980 }).issues_flagged ∧
      "Electrical system may need upgrade" ∈ (evalOf 2025 { sampleProperty with year_built := 1980 }).issues_flagged) := by
  refine ⟨(issue_flags_accumulate 2025 _).1 (by decide),
    (issue_flags_accumulate 2025 _).2.1 (by decide)⟩

/-! ## C9 — unknown cities resolve to the fallback profile -/

/-- C9: a city absent from the market-data table resolves to Austin's
profile (never an error, never empty), and both the Market Analyzer and —
for a property with nonzero square footage — the Property Evaluator
complete normally on that fallback profile. -/
theorem unknown_city_uses_fallback (current_year : ℤ) (property : Property)
    (hcity : ¬ property.city ∈
      (["Austin", "San Diego", "Phoenix", "Nashville", "Charlotte"] : List String))
    (hsqft : property.sqft ≠ 0) :
    get_market_data property.city = austinProfile ∧
    (analyze_market property).location_score = pyround (location_score_raw austinProfile) 1 ∧
    (analyze_market property).appreciation_rate = austinProfile.appreciation_rate ∧
    evaluate_property current_year property = .ok (evalOf current_year property) := by
  simp only [List.mem_cons, List.not_mem_nil, or_false, not_or] at hcity
  obtain ⟨h1, h2, h3, h4, h5⟩ := hcity
  have hg : get_market_data property.city = austinProfile := by
    unfold get_market_data
    rw [if_neg h1, if_neg h2, if_neg h3, if_neg h4, if_neg h5]
  refine ⟨hg, ?_, ?_, ?_⟩
  · show pyround (location_score_raw (get_market_data property.city)) 1 = _
    rw [hg]
  · show (get_market_data property.city).appreciation_rate = _
    rw [hg]
  · show (if property.sqft = 0 then _ else _) = _
    rw [if_neg hsqft]

theorem unknown_city_uses_fallback_witness :
    ¬ ("Gotham" : String) ∈
        (["Austin", "San Diego", "Phoenix", "Nashville", "Charlotte"] : List String) ∧
    get_market_data ({ sampleProperty with city := "Gotham" } : Property).city = austinProfile ∧
    evaluate_property 2024 { sampleProperty with city := "Gotham" } =
      .ok (evalOf 2024 { sampleProperty with city := "Gotham" }) :=
  ⟨by decide,
   (unknown_city_uses_fallback 2024 { sampleProperty with city := "Gotham" }
     (by decide) (by decide)).1,
   (unknown_city_uses_fallback 2024 { sampleProperty with city := "Gotham" }
     (by decide) (by decide)).2.2.2⟩

/-! ## C10 — the condition-score floor and its downstream checks -/

/-- C10: for non-negative age the condition score lies in [70, 100] (the
age penalty is capped at 30, so the 50-point floor never binds); the score
is ≥ 70 for every evaluator output whatsoever, so the Decision Engine's
risk check `condition_score < 60` and concern check `condition_score < 70`
can never fire on evaluator output. -/
theorem condition_floor_never_triggers_checks (current_year : ℤ) (property : Property) :
    (0 ≤ property_age current_year property →
      70 ≤ (evalOf current_year property).condition_score ∧
      (evalOf current_year property).condition_score ≤ 100) ∧
    70 ≤ (evalOf current_year property).condition_score ∧
    ¬ ((evalOf current_year property).condition_score < 60) ∧
    ¬ ((evalOf current_year property).condition_score < 70) := by
  have h70 := le_condition_score current_year property
  exact ⟨fun h => ⟨h70, condition_score_le current_year property h⟩,
    h70, not_lt.mpr (by linarith), not_lt.mpr h70⟩

theorem condition_floor_never_triggers_checks_witness :
    0 ≤ property_age 2024 sampleProperty ∧
    70 ≤ (evalOf 2024 sampleProperty).condition_score ∧
    (evalOf 2024 sampleProperty).condition_score ≤ 100 := by
  have h := (condition_floor_never_triggers_checks 2024 sampleProperty).1 (by decide)
  exact ⟨by decide, h.1, h.2⟩

/-! ## C8 — the location-score formula and its bounds -/

theorem location_score_raw_bounds (m : MarketProfile)
    (hn1 : 0 ≤ m.neighborhood_rating) (hn2 : m.neighborhood_rating ≤ 10)
    (hs1 : 0 ≤ m.school_rating) (hs2 : m.school_rating ≤ 10)
    (hc1 : 0 ≤ m.crime_index) (hc2 : m.crime_index ≤ 100) :
    0 ≤ location_score_raw m ∧ location_score_raw m ≤ 100 := by
  unfold location_score_raw
  constructor <;> nlinarith

/-- Every profile the lookup can return keeps its ratings in [0, 10] and
its crime index in [0, 100]. -/
theorem get_market_data_bounds (city : String) :
    0 ≤ (get_market_data city).neighborhood_rating ∧
    (get_market_data city).neighborhood_rating ≤ 10 ∧
    0 ≤ (get_market_data city).school_rating ∧
    (get_market_data city).school_rating ≤ 10 ∧
    0 ≤ (get_market_data city).crime_index ∧
    (get_market_data city).crime_index ≤ 100 := by
  unfold get_market_data
  split_ifs <;>
    norm_num [austinProfile, sanDiegoProfile, phoenixProfile, nashvilleProfile,
      charlotteProfile]

/-- C8: method `analyze_market` returns exactly the weighted location formula
rounded to one decimal; the result lies in [0, 100] whenever the profile's
ratings are in [0, 10] and its crime index in [0, 100]; the analyzer is a
total function (no error path). -/
theorem analyze_market_formula_and_bounds (property : Property)
    (hn1 : 0 ≤ (get_market_data property.city).neighborhood_rating)
    (hn2 : (get_market_data property.city).neighborhood_rating ≤ 10)
    (hs1 : 0 ≤ (get_market_data property.city).school_rating)
    (hs2 : (get_market_data property.city).school_rating ≤ 10)
    (hc1 : 0 ≤ (get_market_data property.city).crime_index)
    (hc2 : (get_market_data property.city).crime_index ≤ 100) :
    (analyze_market property).location_score =
      pyround (((get_market_data property.city).neighborhood_rating * 0.3 +
        (get_market_data property.city).school_rating * 0.3 +
        (100 - (get_market_data property.city).crime_index) / 10 * 0.4) * 10) 1 ∧
    0 ≤ (analyze_market property).location_score ∧
    (analyze_market property).location_score ≤ 100 := by
  have hb := location_score_raw_bounds (get_market_data property.city)
    hn1 hn2 hs1 hs2 hc1 hc2
  refine ⟨rfl, ?_, ?_⟩
  · show (0:ℚ) ≤ pyround (location_score_raw (get_market_data property.city)) 1
    exact le_pyround_of_le 0 (by norm_num) hb.1
  · show pyround (location_score_raw (get_market_data property.city)) 1 ≤ 100
    exact pyround_le_of_le 1000 (by norm_num) hb.2

theorem analyze_market_formula_and_bounds_witness :
    0 ≤ (get_market_data sampleProperty.city).neighborhood_rating ∧
    (get_market_data sampleProperty.city).crime_index ≤ 100 ∧
    0 ≤ (analyze_market sampleProperty).location_score ∧
    (analyze_market sampleProperty).location_score ≤ 100 := by
  have h := analyze_market_formula_and_bounds sampleProperty
    (by norm_num [sampleProperty, get_market_data, austinProfile])
    (by norm_num [sampleProperty, get_market_data, austinProfile])
    (by norm_num [sampleProperty, get_market_data, austinProfile])
    (by norm_num [sampleProperty, get_market_data, austinProfile])
    (by norm_num [sampleProperty, get_market_data, austinProfile])
    (by norm_num [sampleProperty, get_market_data, austinProfile])
  exact ⟨by norm_num [sampleProperty, get_market_data, austinProfile],
    by norm_num [sampleProperty, get_market_data, austinProfile], h.2.1, h.2.2⟩

/-! ## C2 — the break-even sentinel -/

/-- A valid property whose exact monthly cash flow lies strictly between 0
and 1: the 20%-down mortgage payment on the 80000 loan is between 532 and
533, and `0.77 * 1000 - 237 = 533` minus that payment lands in (0, 1). -/
def breakEvenCexProperty : Property :=
  { property_id := "CEX-C2", address := "1 Example Way", city := "Austin", state := "TX",
    price := 100000, bedrooms := 3, bathrooms := 2.0, sqft := 1000, year_built := 2020,
    property_type := "Single Family", estimated_rent := 1000, hoa_fees := 237,
    property_tax_annual := 0, insurance_annual := 0 }

theorem breakEvenCex_raw_window :
    0 < monthly_cash_flow_raw breakEvenCexProperty ∧
    monthly_cash_flow_raw breakEvenCexProperty < 1 := by
  simp only [monthly_cash_flow_raw, effective_monthly_rent, total_monthly_expenses,
    monthly_mortgage, monthly_payment_of, loan_amount, down_payment, monthly_property_tax,
    monthly_insurance, monthly_hoa, monthly_maintenance, monthly_mgmt, breakEvenCexProperty,
    down_payment_pct, monthly_rate, interest_rate, num_payments, loan_term_years,
    vacancy_rate, maintenance_rate, property_mgmt_rate]
  norm_num

/-- C2 counterexample: on `breakEvenCexProperty` (valid: positive price and
sqft) the returned `FinancialMetrics` has `monthly_cash_flow = 0 ≤ 0` —
the stored field is `int(...)` of a cash flow in (0, 1) — while
`break_even_months` is a genuine month count (≥ 23000), not the 999
sentinel, falsifying "`monthly_cash_flow ≤ 0` implies
`break_even_months = 999`" read over the record's fields. -/
theorem break_even_sentinel_counterexample :
    0 < breakEvenCexProperty.price ∧ 0 < breakEvenCexProperty.sqft ∧
    calculate_metrics breakEvenCexProperty 3 = .ok (metricsOf breakEvenCexProperty 3) ∧
    (metricsOf breakEvenCexProperty 3).monthly_cash_flow ≤ 0 ∧
    (metricsOf breakEvenCexProperty 3).break_even_months ≠ 999 := by
  have hw := breakEvenCex_raw_window
  have hti : total_investment_raw breakEvenCexProperty = 23000 := by
    unfold total_investment_raw down_payment closing_costs down_payment_pct
      breakEvenCexProperty
    norm_num
  refine ⟨by decide, by decide, ?_, ?_, ?_⟩
  · show (if breakEvenCexProperty.price = 0 then _ else _) = _
    rw [if_neg (by decide : ¬ breakEvenCexProperty.price = 0)]
  · show pytrunc (monthly_cash_flow_raw breakEvenCexProperty) ≤ 0
    rw [pytrunc_eq_floor hw.1.le]
    have h1 : ⌊monthly_cash_flow_raw breakEvenCexProperty⌋ < 1 :=
      Int.floor_lt.mpr (by exact_mod_cast hw.2)
    omega
  · show break_even_months_val breakEvenCexProperty ≠ 999
    unfold break_even_months_val
    rw [if_pos hw.1]
    have hq : (23000:ℚ) ≤ total_investment_raw breakEvenCexProperty /
        monthly_cash_flow_raw breakEvenCexProperty := by
      rw [hti, le_div_iff₀ hw.1]
      nlinarith [hw.2]
    have h23 := le_pytrunc 23000 hq (le_trans (by norm_num) hq)
    omega

/-- C2 amended: the sentinel law holds for the exact (pre-truncation)
monthly cash flow computed inside `calculate_metrics`: if that cash flow is
≤ 0 the record's `break_even_months` is 999, and if it is positive it is
`⌊total_investment / monthly_cash_flow⌋`; for a valid property the
computation never divides by zero (the division happens only under
positivity of its divisor). -/
theorem break_even_sentinel (property : Property) (ar : ℚ)
    (hprice : 0 < property.price) :
    calculate_metrics property ar = .ok (metricsOf property ar) ∧
    (monthly_cash_flow_raw property ≤ 0 →
      (metricsOf property ar).break_even_months = 999) ∧
    (0 < monthly_cash_flow_raw property →
      (metricsOf property ar).break_even_months =
        ⌊total_investment_raw property / monthly_cash_flow_raw property⌋) := by
  refine ⟨?_, ?_, ?_⟩
  · show (if property.price = 0 then _ else _) = _
    rw [if_neg hprice.ne']
  · intro h
    show break_even_months_val property = 999
    unfold break_even_months_val
    rw [if_neg (not_lt.mpr h)]
  · intro h
    show break_even_months_val property = _
    unfold break_even_months_val
    rw [if_pos h]
    apply pytrunc_eq_floor
    have hp : (0:ℚ) < (property.price : ℚ) := by exact_mod_cast hprice
    have hti : 0 < total_investment_raw property := by
      unfold total_investment_raw down_payment closing_costs down_payment_pct
      linarith
    exact (div_pos hti h).le

theorem break_even_sentinel_witness :
    0 < sampleProperty.price ∧
    calculate_metrics sampleProperty 8.5 = .ok (metricsOf sampleProperty 8.5) :=
  ⟨by decide, (break_even_sentinel sampleProperty 8.5 (by decide)).1⟩

/-! ## C4 — there is no input validation -/

/-- The pipeline's happy path: with nonzero price and sqft every stage
completes. -/
theorem run_pipeline_ok (current_year : ℤ) (property : Property)
    (hprice : property.price ≠ 0) (hsqft : property.sqft ≠ 0) :
    run_pipeline current_year property = .ok (pipelineOutput current_year property) := by
  unfold run_pipeline pipelineOutput evaluate_property calculate_metrics
  simp only [if_neg hsqft, if_neg hprice]
  rfl

def zeroSqftProperty : Property := { sampleProperty with sqft := 0 }

def negativePriceProperty : Property := { sampleProperty with price := -425000 }

def zeroPriceProperty : Property := { sampleProperty with price := 0 }

/-- C4 is a code bug: no stage validates its input.  With `sqft = 0` the
Property Evaluator raises an uncontrolled `ZeroDivisionError` (not a
validation error); with `price = 0` the evaluator succeeds — scoring has
already begun — and the Financial Calculator then raises an uncontrolled
`ZeroDivisionError`; and with a negative price the whole pipeline completes
silently and produces scores. -/
theorem no_input_validation :
    evaluate_property 2024 zeroSqftProperty = .error .zeroDivision ∧
    evaluate_property 2024 zeroPriceProperty = .ok (evalOf 2024 zeroPriceProperty) ∧
    run_pipeline 2024 zeroPriceProperty = .error .zeroDivision ∧
    run_pipeline 2024 negativePriceProperty =
      .ok (pipelineOutput 2024 negativePriceProperty) := by
  refine ⟨rfl, rfl, rfl, run_pipeline_ok 2024 negativePriceProperty (by decide) (by decide)⟩

/-! ## C5 — monotonicity in the estimated rent -/

theorem monthly_cash_flow_raw_rent_mono (property : Property) (r2 : ℤ)
    (h : property.estimated_rent ≤ r2) :
    monthly_cash_flow_raw property ≤
      monthly_cash_flow_raw { property with estimated_rent := r2 } := by
  have hq : (property.estimated_rent : ℚ) ≤ (r2 : ℚ) := by exact_mod_cast h
  simp only [monthly_cash_flow_raw, effective_monthly_rent, total_monthly_expenses,
    monthly_mortgage, monthly_payment_of, loan_amount, down_payment, monthly_property_tax,
    monthly_insurance, monthly_hoa, monthly_maintenance, monthly_mgmt,
    vacancy_rate, maintenance_rate, property_mgmt_rate]
  linarith

theorem annual_noi_rent_mono (property : Property) (r2 : ℤ)
    (h : property.estimated_rent ≤ r2) :
    annual_noi property ≤ annual_noi { property with estimated_rent := r2 } := by
  have hq : (property.estimated_rent : ℚ) ≤ (r2 : ℚ) := by exact_mod_cast h
  simp only [annual_noi, effective_monthly_rent, monthly_property_tax, monthly_insurance,
    monthly_hoa, monthly_maintenance, monthly_mgmt, vacancy_rate, maintenance_rate,
    property_mgmt_rate]
  linarith

theorem cap_rate_raw_rent_mono (property : Property) (r2 : ℤ)
    (hprice : 0 < property.price) (h : property.estimated_rent ≤ r2) :
    cap_rate_raw property ≤ cap_rate_raw { property with estimated_rent := r2 } := by
  have hnoi := annual_noi_rent_mono property r2 h
  have hq : (0:ℚ) < (property.price : ℚ) := by exact_mod_cast hprice
  show annual_noi property / (property.price : ℚ) * 100 ≤
    annual_noi { property with estimated_rent := r2 } / (property.price : ℚ) * 100
  have hd := div_le_div_of_nonneg_right hnoi hq.le
  linarith

theorem annual_cash_flow_raw_rent_mono (property : Property) (r2 : ℤ)
    (h : property.estimated_rent ≤ r2) :
    annual_cash_flow_raw property ≤
      annual_cash_flow_raw { property with estimated_rent := r2 } := by
  have hm := monthly_cash_flow_raw_rent_mono property r2 h
  unfold annual_cash_flow_raw
  linarith

theorem roi_5_year_raw_rent_mono (property : Property) (r2 : ℤ) (ar : ℚ)
    (hprice : 0 < property.price) (h : property.estimated_rent ≤ r2) :
    roi_5_year_raw property ar ≤
      roi_5_year_raw { property with estimated_rent := r2 } ar := by
  have hacf := annual_cash_flow_raw_rent_mono property r2 h
  have hq : (0:ℚ) < (property.price : ℚ) := by exact_mod_cast hprice
  have hgain : total_gain property ar ≤ total_gain { property with estimated_rent := r2 } ar := by
    simp only [total_gain, future_value, equity_buildup, loan_amount, down_payment]
    linarith
  have hti : (0:ℚ) < total_investment_raw property := by
    unfold total_investment_raw down_payment closing_costs down_payment_pct
    linarith
  show total_gain property ar / total_investment_raw property * 100 ≤
    total_gain { property with estimated_rent := r2 } ar /
      total_investment_raw { property with estimated_rent := r2 } * 100
  have hsame : total_investment_raw { property with estimated_rent := r2 } =
      total_investment_raw property := rfl
  rw [hsame]
  have hd := div_le_div_of_nonneg_right hgain hti.le
  linarith

theorem cash_flow_tier_mono {a b : ℤ} (h : a ≤ b) :
    (if a ≥ 500 then (30:ℚ) else if a ≥ 300 then 25 else if a ≥ 100 then 20
      else if a > 0 then 15 else 0) ≤
    (if b ≥ 500 then (30:ℚ) else if b ≥ 300 then 25 else if b ≥ 100 then 20
      else if b > 0 then 15 else 0) := by
  split_ifs <;> first | (norm_num; done) | (exfalso; omega)

theorem cash_flow_score_mono {m1 m2 : FinancialMetrics}
    (h : m1.monthly_cash_flow ≤ m2.monthly_cash_flow) :
    cash_flow_score m1 ≤ cash_flow_score m2 :=
  cash_flow_tier_mono h

theorem calculate_financial_score_rent_mono (property : Property) (r2 : ℤ) (ar : ℚ)
    (hprice : 0 < property.price) (h : property.estimated_rent ≤ r2) :
    calculate_financial_score (metricsOf property ar) ≤
      calculate_financial_score (metricsOf { property with estimated_rent := r2 } ar) := by
  have hcap : (metricsOf property ar).cap_rate ≤
      (metricsOf { property with estimated_rent := r2 } ar).cap_rate :=
    pyround_mono 2 (cap_rate_raw_rent_mono property r2 hprice h)
  have hcf : (metricsOf property ar).monthly_cash_flow ≤
      (metricsOf { property with estimated_rent := r2 } ar).monthly_cash_flow :=
    pytrunc_mono (monthly_cash_flow_raw_rent_mono property r2 h)
  have hroi : (metricsOf property ar).roi_5_year ≤
      (metricsOf { property with estimated_rent := r2 } ar).roi_5_year :=
    pyround_mono 2 (roi_5_year_raw_rent_mono property r2 ar hprice h)
  unfold calculate_financial_score cap_rate_score roi_score
  have t1 := min_le_min (mul_le_mul_of_nonneg_right hcap (by norm_num : (0:ℚ) ≤ 4))
    (le_refl (40:ℚ))
  have t2 := cash_flow_score_mono hcf
  have t3 := min_le_min (div_le_div_of_nonneg_right hroi (by norm_num : (0:ℚ) ≤ 3))
    (le_refl (30:ℚ))
  exact min_le_min (by linarith) (le_refl (100:ℚ))

theorem overall_score_raw_mono_left {f1 f2 ms ps : ℚ} (h : f1 ≤ f2) :
    overall_score_raw f1 ms ps ≤ overall_score_raw f2 ms ps := by
  unfold overall_score_raw weight_financial weight_market weight_property
  linarith

/-- C5: raising the estimated rent (everything else fixed) does not
decrease the monthly cash flow, the cap rate, or the overall score. -/
theorem rent_monotonicity (current_year : ℤ) (property : Property) (r2 : ℤ) (ar : ℚ)
    (hprice : 0 < property.price) (hsqft : 0 < property.sqft)
    (hrent : property.estimated_rent ≤ r2) :
    (metricsOf property ar).monthly_cash_flow ≤
      (metricsOf { property with estimated_rent := r2 } ar).monthly_cash_flow ∧
    (metricsOf property ar).cap_rate ≤
      (metricsOf { property with estimated_rent := r2 } ar).cap_rate ∧
    (pipelineOutput current_year property).overall_score ≤
      (pipelineOutput current_year { property with estimated_rent := r2 }).overall_score := by
  have _ := hsqft
  refine ⟨pytrunc_mono (monthly_cash_flow_raw_rent_mono property r2 hrent),
    pyround_mono 2 (cap_rate_raw_rent_mono property r2 hprice hrent), ?_⟩
  have hma : analyze_market { property with estimated_rent := r2 } =
      analyze_market property := rfl
  have hev : evalOf current_year { property with estimated_rent := r2 } =
      evalOf current_year property := rfl
  show pyround (overall_score_raw
      (calculate_financial_score (metricsOf property (analyze_market property).appreciation_rate))
      (analyze_market property).location_score
      (evalOf current_year property).condition_score) 1 ≤
    pyround (overall_score_raw
      (calculate_financial_score (metricsOf { property with estimated_rent := r2 }
        (analyze_market { property with estimated_rent := r2 }).appreciation_rate))
      (analyze_market { property with estimated_rent := r2 }).location_score
      (evalOf current_year { property with estimated_rent := r2 }).condition_score) 1
  rw [hma, hev]
  exact pyround_mono 1 (overall_score_raw_mono_left
    (calculate_financial_score_rent_mono property r2
      (analyze_market property).appreciation_rate hprice hrent))

/-! ## C3 — score bounds over the full pipeline -/

theorem pipelineOutput_overall_score (current_year : ℤ) (property : Property) :
    (pipelineOutput current_year property).overall_score =
      pyround (overall_score_raw
        (calculate_financial_score
          (metricsOf property (analyze_market property).appreciation_rate))
        (analyze_market property).location_score
        (evalOf current_year property).condition_score) 1 := rfl

theorem pipelineOutput_confidence (current_year : ℤ) (property : Property) :
    (pipelineOutput current_year property).confidence =
      pyround (calculate_confidence
        (calculate_financial_score
          (metricsOf property (analyze_market property).appreciation_rate))
        (analyze_market property).location_score
        (evalOf current_year property).condition_score) 1 := rfl

theorem analyze_market_location_score_bounds (property : Property) :
    0 ≤ (analyze_market property).location_score ∧
    (analyze_market property).location_score ≤ 100 := by
  obtain ⟨b1, b2, b3, b4, b5, b6⟩ := get_market_data_bounds property.city
  have hb := location_score_raw_bounds (get_market_data property.city) b1 b2 b3 b4 b5 b6
  constructor
  · show (0:ℚ) ≤ pyround (location_score_raw (get_market_data property.city)) 1
    exact le_pyround_of_le 0 (by norm_num) hb.1
  · show pyround (location_score_raw (get_market_data property.city)) 1 ≤ 100
    exact pyround_le_of_le 1000 (by norm_num) hb.2

theorem confidence_bounds (financial_score market_score property_score : ℚ) :
    (50:ℝ) ≤ pyround (calculate_confidence financial_score market_score property_score) 1 ∧
    pyround (calculate_confidence financial_score market_score property_score) 1 ≤ 100 := by
  have hs : (0:ℝ) ≤ Real.sqrt
      ((score_variance financial_score market_score property_score : ℚ) : ℝ) :=
    Real.sqrt_nonneg _
  have hup : calculate_confidence financial_score market_score property_score ≤ 100 := by
    unfold calculate_confidence
    exact max_le (by linarith) (by norm_num)
  have hlo : (50:ℝ) ≤ calculate_confidence financial_score market_score property_score :=
    le_max_right _ _
  exact ⟨le_pyround_of_le 500 (by norm_num) hlo, pyround_le_of_le 1000 (by norm_num) hup⟩

theorem calculate_financial_score_le (metrics : FinancialMetrics) :
    calculate_financial_score metrics ≤ 100 := min_le_right _ _

theorem cash_flow_score_nonneg (metrics : FinancialMetrics) :
    0 ≤ cash_flow_score metrics := by
  unfold cash_flow_score
  split_ifs <;> norm_num

theorem calculate_financial_score_nonneg (metrics : FinancialMetrics)
    (hcap : 0 ≤ metrics.cap_rate) (hroi : 0 ≤ metrics.roi_5_year) :
    0 ≤ calculate_financial_score metrics := by
  have h1 : (0:ℚ) ≤ cap_rate_score metrics :=
    le_min (mul_nonneg hcap (by norm_num)) (by norm_num)
  have h2 := cash_flow_score_nonneg metrics
  have h3 : (0:ℚ) ≤ roi_score metrics :=
    le_min (div_nonneg hroi (by norm_num)) (by norm_num)
  exact le_min (by linarith) (by norm_num)

/-- C3 amended: for a valid property (positive price and sqft) whose
`year_built` does not lie in the future, the pipeline completes and
`0 ≤ location_score ≤ 100`, `50 ≤ condition_score ≤ 100`,
`overall_score ≤ 100` and `50 ≤ confidence ≤ 100` all hold; the lower
bound `0 ≤ overall_score` additionally holds whenever the metrics'
`cap_rate` and `roi_5_year` are non-negative (the financial score has no
lower clamp, so a sufficiently negative cap rate drives it — and the
overall score — below zero). -/
theorem pipeline_score_bounds (current_year : ℤ) (property : Property)
    (hprice : 0 < property.price) (hsqft : 0 < property.sqft)
    (hyear : property.year_built ≤ current_year) :
    run_pipeline current_year property = .ok (pipelineOutput current_year property) ∧
    0 ≤ (analyze_market property).location_score ∧
    (analyze_market property).location_score ≤ 100 ∧
    50 ≤ (evalOf current_year property).condition_score ∧
    (evalOf current_year property).condition_score ≤ 100 ∧
    (pipelineOutput current_year property).overall_score ≤ 100 ∧
    (50:ℝ) ≤ (pipelineOutput current_year property).confidence ∧
    (pipelineOutput current_year property).confidence ≤ 100 ∧
    (0 ≤ (metricsOf property (analyze_market property).appreciation_rate).cap_rate →
      0 ≤ (metricsOf property (analyze_market property).appreciation_rate).roi_5_year →
      0 ≤ (pipelineOutput current_year property).overall_score) := by
  have hage : 0 ≤ property_age current_year property := by
    unfold property_age
    omega
  have hloc := analyze_market_location_score_bounds property
  have hcond70 := le_condition_score current_year property
  have hcond100 := condition_score_le current_year property hage
  have hconf := confidence_bounds
    (calculate_financial_score (metricsOf property (analyze_market property).appreciation_rate))
    (analyze_market property).location_score
    (evalOf current_year property).condition_score
  refine ⟨run_pipeline_ok current_year property hprice.ne' hsqft.ne',
    hloc.1, hloc.2, by linarith, hcond100, ?_, ?_, ?_, ?_⟩
  · rw [pipelineOutput_overall_score]
    refine pyround_le_of_le 1000 (by norm_num) ?_
    have hf := calculate_financial_score_le
      (metricsOf property (analyze_market property).appreciation_rate)
    unfold overall_score_raw weight_financial weight_market weight_property
    linarith [hloc.2, hcond100]
  · rw [pipelineOutput_confidence]
    exact hconf.1
  · rw [pipelineOutput_confidence]
    exact hconf.2
  · intro hcap hroi
    rw [pipelineOutput_overall_score]
    refine le_pyround_of_le 0 (by norm_num) ?_
    have hf := calculate_financial_score_nonneg
      (metricsOf property (analyze_market property).appreciation_rate) hcap hroi
    unfold overall_score_raw weight_financial weight_market weight_property
    linarith [hloc.1, hcond70]

theorem pipeline_score_bounds_witness :
    0 < sampleProperty.price ∧ 0 < sampleProperty.sqft ∧
    sampleProperty.year_built ≤ 2024 ∧
    run_pipeline 2024 sampleProperty = .ok (pipelineOutput 2024 sampleProperty) ∧
    50 ≤ (evalOf 2024 sampleProperty).condition_score :=
  ⟨by decide, by decide, by decide,
    (pipeline_score_bounds 2024 sampleProperty (by decide) (by decide) (by decide)).1,
    (pipeline_score_bounds 2024 sampleProperty (by decide) (by decide) (by decide)).2.2.2.1⟩

/-- A valid property built after the reference year: the age penalty goes
negative and the condition score exceeds 100. -/
def futureYearProperty : Property := { sampleProperty with year_built := 2030 }

/-- A valid property (rent 0, property tax 1.2M/yr) whose cap rate is
-1200, driving the unclamped financial score — and the overall score —
far below zero. -/
def negativeScoreProperty : Property :=
  { property_id := "CEX-C3", address := "2 Example Way", city := "Austin", state := "TX",
    price := 100000, bedrooms := 3, bathrooms := 1.0, sqft := 1000, year_built := 2025,
    property_type := "Single Family", estimated_rent := 0, hoa_fees := 0,
    property_tax_annual := 1200000, insurance_annual := 0 }

/-- C3 counterexample: both failures at explicit valid inputs (price > 0,
sqft > 0) — a 2030 build run in 2025 gets condition score 107.5 > 100, and
`negativeScoreProperty` completes the pipeline with a negative overall
score. -/
theorem pipeline_score_bounds_counterexample :
    (0 < futureYearProperty.price ∧ 0 < futureYearProperty.sqft ∧
      100 < (evalOf 2025 futureYearProperty).condition_score) ∧
    (0 < negativeScoreProperty.price ∧ 0 < negativeScoreProperty.sqft ∧
      run_pipeline 2025 negativeScoreProperty =
        .ok (pipelineOutput 2025 negativeScoreProperty) ∧
      (pipelineOutput 2025 negativeScoreProperty).overall_score < 0) := by
  constructor
  · refine ⟨by decide, by decide, ?_⟩
    rw [evalOf_condition_score]
    have hraw : condition_score_raw 2025 futureYearProperty = 107.5 := by
      unfold condition_score_raw property_age futureYearProperty sampleProperty
      norm_num [min_def, max_def]
    rw [hraw, pyround_eq_self 1075 (by norm_num)]
    norm_num
  · refine ⟨by decide, by decide,
      run_pipeline_ok 2025 negativeScoreProperty (by decide) (by decide), ?_⟩
    have har : (analyze_market negativeScoreProperty).appreciation_rate = (8.5:ℚ) := rfl
    have hm : (analyze_market negativeScoreProperty).location_score = 75.5 := by
      show pyround (location_score_raw (get_market_data negativeScoreProperty.city)) 1 = 75.5
      have hg : get_market_data negativeScoreProperty.city = austinProfile := rfl
      rw [hg]
      have hr : location_score_raw austinProfile = 75.5 := by
        unfold location_score_raw austinProfile
        norm_num
      rw [hr, pyround_eq_self 755 (by norm_num)]
    have hp : (evalOf 2025 negativeScoreProperty).condition_score = 100 := by
      rw [evalOf_condition_score]
      have hraw : condition_score_raw 2025 negativeScoreProperty = 100 := by
        unfold condition_score_raw property_age negativeScoreProperty
        norm_num [min_def, max_def]
      rw [hraw, pyround_eq_self 1000 (by norm_num)]
    have hcap : (metricsOf negativeScoreProperty 8.5).cap_rate = -1200 := by
      show pyround (cap_rate_raw negativeScoreProperty) 2 = -1200
      have hr : cap_rate_raw negativeScoreProperty = -1200 := by
        unfold cap_rate_raw annual_noi effective_monthly_rent monthly_property_tax
          monthly_insurance monthly_hoa monthly_maintenance monthly_mgmt
          negativeScoreProperty vacancy_rate maintenance_rate property_mgmt_rate
        norm_num
      rw [hr]
      exact pyround_eq_self (-120000) (by norm_num)
    have hmort : 0 < monthly_mortgage negativeScoreProperty := by
      simp only [monthly_mortgage, monthly_payment_of, loan_amount, down_payment,
        negativeScoreProperty, down_payment_pct, monthly_rate, interest_rate,
        num_payments, loan_term_years]
      norm_num
    have hcf : (metricsOf negativeScoreProperty 8.5).monthly_cash_flow ≤ 0 := by
      show pytrunc (monthly_cash_flow_raw negativeScoreProperty) ≤ 0
      apply pytrunc_nonpos
      have e1 : effective_monthly_rent negativeScoreProperty = 0 := by
        unfold effective_monthly_rent negativeScoreProperty
        norm_num
      have e2 : monthly_property_tax negativeScoreProperty = 100000 := by
        unfold monthly_property_tax negativeScoreProperty
        norm_num
      have e3 : monthly_insurance negativeScoreProperty = 0 := by
        unfold monthly_insurance negativeScoreProperty
        norm_num
      have e4 : monthly_hoa negativeScoreProperty = 0 := by
        unfold monthly_hoa negativeScoreProperty
        norm_num
      have e5 : monthly_maintenance negativeScoreProperty = 0 := by
        unfold monthly_maintenance negativeScoreProperty
        norm_num
      have e6 : monthly_mgmt negativeScoreProperty = 0 := by
        unfold monthly_mgmt negativeScoreProperty
        norm_num
      unfold monthly_cash_flow_raw total_monthly_expenses
      rw [e1, e2, e3, e4, e5, e6]
      linarith
    have htier : cash_flow_score (metricsOf negativeScoreProperty 8.5) = 0 := by
      unfold cash_flow_score
      rw [if_neg (not_le.mpr (lt_of_le_of_lt hcf (by norm_num))),
        if_neg (not_le.mpr (lt_of_le_of_lt hcf (by norm_num))),
        if_neg (not_le.mpr (lt_of_le_of_lt hcf (by norm_num))),
        if_neg (not_lt.mpr hcf)]
    have hf : calculate_financial_score (metricsOf negativeScoreProperty 8.5) ≤ -4770 := by
      unfold calculate_financial_score
      have h1 : cap_rate_score (metricsOf negativeScoreProperty 8.5) = -4800 := by
        unfold cap_rate_score
        rw [hcap]
        norm_num [min_def]
      have h3 : roi_score (metricsOf negativeScoreProperty 8.5) ≤ 30 := min_le_right _ _
      rw [h1, htier]
      have hmin := min_le_left (-4800 + 0 + roi_score (metricsOf negativeScoreProperty 8.5))
        (100:ℚ)
      linarith
    rw [pipelineOutput_overall_score, har, hm, hp]
    have hb := pyround_le_add (overall_score_raw
      (calculate_financial_score (metricsOf negativeScoreProperty 8.5)) 75.5 100) 1
    have hov : overall_score_raw
        (calculate_financial_score (metricsOf negativeScoreProperty 8.5)) 75.5 100 ≤ -1855 := by
      unfold overall_score_raw weight_financial weight_market weight_property
      linarith
    linarith

theorem rent_monotonicity_witness :
    0 < sampleProperty.price ∧ 0 < sampleProperty.sqft ∧
    sampleProperty.estimated_rent ≤ 2500 ∧
    (metricsOf sampleProperty 8.5).monthly_cash_flow ≤
      (metricsOf { sampleProperty with estimated_rent := 2500 } 8.5).monthly_cash_flow :=
  ⟨by decide, by decide, by decide,
    (rent_monotonicity 2024 sampleProperty 2500 8.5 (by decide) (by decide) (by decide)).1⟩

end REIA
